import Mathlib

/-!
Shallow embedding of src/gpg_list.py.

External collaborators (the filesystem, the gnupg library, the csv module)
are modelled as explicit parameters:

* the per-file try block of get_encrypted_recipient (opening the file and
  calling gpg.get_recipients_file on it, lines 66-68) is modelled by a value
  of type Except String (List String): error msg means an exception raised
  anywhere inside the try block (file not readable, permission denied, parse
  failure), ok xs means the recipient key-id list the gnupg collaborator
  returned;
* a lookup function String -> Except String (List String) models the
  combination of filesystem and gnupg collaborator, one outcome per path;
* os.path.exists and os.path.isdir are Bool parameters;
* the byte-level CSV write (open(output_file, mode='w'), lines 101-104) is
  modelled as succeeding; the rows actually written are carried in the
  outcome value.
-/

/-- A Python value as it can appear in the recipient field of a result row:
a key-id string, the value None, or a boolean (the except branch at line 76
returns the boolean False). -/
inductive PyVal where
  | str (s : String)
  | none
  | bool (b : Bool)
  deriving DecidableEq

/-- Python truthiness restricted to the values the scanner stores in the
recipient field (line 159: is_encrypted = True if recipient else False).
A string is truthy iff non-empty, None is falsy, a boolean is itself. -/
def truthy : PyVal → Bool
  | PyVal.str s => !(s == "")
  | PyVal.none => false
  | PyVal.bool b => b

/-- src/gpg_list.py lines 53-76, get_encrypted_recipient.  The argument is
the outcome of the try block.  On any exception the function prints a
diagnostic and returns the Python boolean False (line 76); otherwise it
returns result[0] when the recipient list is non-empty and None when it is
empty (line 71). -/
def get_encrypted_recipient (tryOutcome : Except String (List String)) : PyVal :=
  match tryOutcome with
  | Except.error _ => PyVal.bool false
  | Except.ok result =>
      match result with
      | [] => PyVal.none
      | r :: _ => PyVal.str r

/-- One row of the scan report: the list [file, recipient, is_encrypted]
built at src/gpg_list.py line 160. -/
structure ScanRow where
  filePath : String
  recipient : PyVal
  isEncrypted : Bool
  deriving DecidableEq

/-- The body of the per-file loop at src/gpg_list.py lines 158-160. -/
def classifyFile (gpgLookup : String → Except String (List String))
    (file : String) : ScanRow :=
  let recipient := get_encrypted_recipient (gpgLookup file)
  { filePath := file, recipient := recipient, isEncrypted := truthy recipient }

/-- The whole loop at src/gpg_list.py lines 157-160: one row appended per
file, in the order the file list was supplied. -/
def scanFiles (gpgLookup : String → Except String (List String))
    (files : List String) : List ScanRow :=
  files.map (classifyFile gpgLookup)

/-- How Python's csv.writer renders one cell: str() of the value, except
that None is written as the empty string. -/
def pyStr : PyVal → String
  | PyVal.str s => s
  | PyVal.none => ""
  | PyVal.bool b => if b then "True" else "False"

/-- The CSV rendering of one result row [file, recipient, is_encrypted]. -/
def rowToList (r : ScanRow) : List String :=
  [r.filePath, pyStr r.recipient, if r.isEncrypted then "True" else "False"]

/-- The headers list built at src/gpg_list.py line 162. -/
def csvHeaders : List String := ["File Path", "Recipient UID", "Is Encrypted"]

/-- Outcome of write_array_to_csv (src/gpg_list.py lines 78-116): either the
rows actually written (header row first), or one of the two anticipated
exception kinds, each caught, printed and turned into a False return
value at line 116. -/
inductive CsvOutcome where
  | written (content : List (List String))
  | valueError
  | fileExistsError
  deriving DecidableEq

/-- The bool write_array_to_csv returns: True at line 107 only after a
successful write, False at line 116 on any caught exception. -/
def csvReturnValue : CsvOutcome → Bool
  | CsvOutcome.written _ => true
  | CsvOutcome.valueError => false
  | CsvOutcome.fileExistsError => false

/-- src/gpg_list.py lines 78-116.  The row-length validation at line 93
runs first, then the clobber check at line 97, then the write at lines
101-104.  os.path.exists(output_file) is the parameter outputFileExists. -/
def write_array_to_csv (data : List (List String)) (headers : List String)
    (outputFileExists allow_clobber : Bool) : CsvOutcome :=
  if data.all (fun row => row.length == headers.length) = false then
    CsvOutcome.valueError
  else if (outputFileExists && !allow_clobber) = true then
    CsvOutcome.fileExistsError
  else
    CsvOutcome.written (headers :: data)

/-- The exception kinds raised by validate_and_sanitize_directory_path at
src/gpg_list.py lines 23 and 25. -/
inductive DirError where
  | fileNotFoundError
  | notADirectoryError
  deriving DecidableEq

/-- src/gpg_list.py lines 10-27.  The first argument is the already
normalized path (os.path.normpath is an external library call); pathExists
and isDir model os.path.exists and os.path.isdir on that path.  The two
raise statements are modelled as Except.error values. -/
def validate_and_sanitize_directory_path (sanitizedPath : String)
    (pathExists isDir : Bool) : Except DirError String :=
  if pathExists = false then Except.error DirError.fileNotFoundError
  else if isDir = false then Except.error DirError.notADirectoryError
  else Except.ok sanitizedPath

/-- Outcome of mainProgram after argument parsing.  fatal models the uncaught
exception escaping validate_and_sanitize_directory_path at line 146: Python
prints the error and exits with a non-zero status before any file is
classified, so this constructor carries no report.  done carries the
accumulated report and, when an out_file was given, the outcome of the CSV
write at line 168. -/
inductive MainOutcome where
  | fatal (e : DirError)
  | done (report : List ScanRow) (csvResult : Option CsvOutcome)
  deriving DecidableEq

/-- src/gpg_list.py lines 142-168, after the flag validation.  files is the
list returned by the list_all_files collaborator at line 151, in discovery
order.  Table printing at line 166 is terminal output only and is not
modelled. -/
def mainProgram (sanitizedDir : String) (dirExists dirIsDir : Bool)
    (files : List String)
    (gpgLookup : String → Except String (List String))
    (outFile : Option String) (outputFileExists allow_clobber : Bool) :
    MainOutcome :=
  match validate_and_sanitize_directory_path sanitizedDir dirExists dirIsDir with
  | Except.error e => MainOutcome.fatal e
  | Except.ok _ =>
      let report := scanFiles gpgLookup files
      let csvResult := outFile.map (fun _ =>
        write_array_to_csv (report.map rowToList) csvHeaders
          outputFileExists allow_clobber)
      MainOutcome.done report csvResult

/-- A usable recipient key id in a row: a non-empty key-id string.  The
error sentinel False and the value None are not recipients. -/
def isUsableRecipient : PyVal → Bool
  | PyVal.str s => !(s == "")
  | PyVal.none => false
  | PyVal.bool _ => false

/-- The filePath field of a classified row is the input path. -/
theorem classifyFile_filePath (g : String → Except String (List String))
    (file : String) : (classifyFile g file).filePath = file := rfl

/-- Projecting the paths out of a scan gives back the input file list. -/
theorem scanFiles_map_filePath (g : String → Except String (List String))
    (files : List String) :
    (scanFiles g files).map ScanRow.filePath = files := by
  induction files with
  | nil => rfl
  | cons f fs ih =>
      simp only [scanFiles, List.map_cons] at ih ⊢
      rw [classifyFile_filePath, ih]

/-- Every rendered row has exactly as many cells as the headers list. -/
theorem rowToList_length (r : ScanRow) :
    (rowToList r).length = csvHeaders.length := rfl

/-- The row-length validation of line 93 passes on every rendered report. -/
theorem rows_all_length (report : List ScanRow) :
    (report.map rowToList).all
      (fun row => row.length == csvHeaders.length) = true := by
  induction report with
  | nil => rfl
  | cons r rs ih =>
      simp only [List.map_cons, List.all_cons, Bool.and_eq_true]
      exact ⟨rfl, ih⟩

/-- C1, counterexample: on an unreadable file the classifier stores the
Python boolean False in the recipient field, not none, refuting the claimed
conversion of failures to recipient = none. -/
theorem c1_error_recipient_not_none_counterexample :
    (classifyFile (fun _ => Except.error ("Permission denied"))
        ("secret.gpg")).recipient = PyVal.bool false
    ∧ PyVal.bool false ≠ PyVal.none :=
  ⟨rfl, by decide⟩

/-- C1 (amended): every failure raised inside the per-file try block is
caught and converted to a row with recipient = the Python boolean False
(the error sentinel, not none) and isEncrypted = false; the classifier is a
total function of the lookup outcome, so one unreadable file never aborts
the batch. -/
theorem c1_failure_caught_as_false_sentinel
    (gpgLookup : String → Except String (List String)) (file msg : String)
    (h : gpgLookup file = Except.error msg) :
    classifyFile gpgLookup file =
      { filePath := file, recipient := PyVal.bool false,
        isEncrypted := false } := by
  simp [classifyFile, h, get_encrypted_recipient, truthy]

/-- C1 witness: the amended theorem at a concrete unreadable file. -/
theorem c1_failure_caught_as_false_sentinel_witness :
    classifyFile (fun _ => Except.error ("unreadable")) ("a.txt") =
      { filePath := "a.txt", recipient := PyVal.bool false,
        isEncrypted := false } :=
  c1_failure_caught_as_false_sentinel (fun _ => Except.error ("unreadable"))
    ("a.txt") ("unreadable") rfl

/-- C2: when the recipient lookup yields a non-empty list, the classifier
returns exactly the element at index 0 of that list; the remaining
recipients are discarded, never aggregated. -/
theorem c2_first_recipient_wins (r : String) (rest : List String) :
    get_encrypted_recipient (Except.ok (r :: rest))
      = PyVal.str ((r :: rest).get ⟨0, Nat.succ_pos rest.length⟩) := rfl

/-- C3: in every row the per-file loop produces, isEncrypted is true exactly
when the recipient field holds a usable (non-empty) key-id string:
encryption status is computed from the recipient value and nothing else. -/
theorem c3_isEncrypted_iff_recipient_present
    (gpgLookup : String → Except String (List String)) (file : String) :
    (classifyFile gpgLookup file).isEncrypted
      = isUsableRecipient (classifyFile gpgLookup file).recipient := by
  cases h : gpgLookup file with
  | error e =>
      simp [classifyFile, h, get_encrypted_recipient, truthy, isUsableRecipient]
  | ok result =>
      cases result with
      | nil =>
          simp [classifyFile, h, get_encrypted_recipient, truthy,
            isUsableRecipient]
      | cons r rs =>
          simp [classifyFile, h, get_encrypted_recipient, truthy,
            isUsableRecipient]

/-- C4: whenever mainProgram reaches the done outcome, the report holds exactly one
row per input file and projecting the paths gives back the discovery-order
file list itself, so nothing is sorted, dropped or duplicated. -/
theorem c4_one_row_per_file_in_discovery_order
    (sanitizedDir : String) (dirExists dirIsDir : Bool) (files : List String)
    (gpgLookup : String → Except String (List String))
    (outFile : Option String) (outputFileExists allow_clobber : Bool)
    (report : List ScanRow) (csvResult : Option CsvOutcome)
    (h : mainProgram sanitizedDir dirExists dirIsDir files gpgLookup outFile
          outputFileExists allow_clobber = MainOutcome.done report csvResult) :
    report.map ScanRow.filePath = files ∧ report.length = files.length := by
  have hrep : report = scanFiles gpgLookup files := by
    cases hv : validate_and_sanitize_directory_path sanitizedDir dirExists
        dirIsDir with
    | error e => simp [mainProgram, hv] at h
    | ok p =>
        simp only [mainProgram, hv] at h
        exact (MainOutcome.done.injEq _ _ _ _).mp h |>.1.symm
  subst hrep
  refine ⟨scanFiles_map_filePath gpgLookup files, ?_⟩
  simp [scanFiles]

/-- C4 witness: one file in, one row out, path preserved. -/
theorem c4_one_row_per_file_in_discovery_order_witness :
    ([{ filePath := "f1", recipient := PyVal.none, isEncrypted := false }] :
        List ScanRow).map ScanRow.filePath = ["f1"]
    ∧ ([{ filePath := "f1", recipient := PyVal.none, isEncrypted := false }] :
        List ScanRow).length = (["f1"] : List String).length :=
  c4_one_row_per_file_in_discovery_order ("d") true true (["f1"])
    (fun _ => Except.ok []) Option.none false false
    [{ filePath := "f1", recipient := PyVal.none, isEncrypted := false }]
    Option.none rfl

/-- C5: with the destination file present and allow_clobber false, the CSV
writer takes the FileExistsError branch, an error kind distinct from the
row-length ValueError; no content is written and the function returns
False.  The writer only reads the rows it is given, so the in-memory
report is untouched. -/
theorem c5_refuses_overwrite (report : List ScanRow) :
    write_array_to_csv (report.map rowToList) csvHeaders true false
      = CsvOutcome.fileExistsError
    ∧ csvReturnValue
        (write_array_to_csv (report.map rowToList) csvHeaders true false)
        = false
    ∧ CsvOutcome.fileExistsError ≠ CsvOutcome.valueError := by
  have hall := rows_all_length report
  refine ⟨?_, ?_, by decide⟩ <;>
    simp [write_array_to_csv, hall, csvReturnValue]

/-- C6: whenever the clobber check passes, the content written is exactly
the header row File Path, Recipient UID, Is Encrypted followed by one data
row per ScanResult, in report order. -/
theorem c6_csv_header_and_rows (report : List ScanRow)
    (outputFileExists allow_clobber : Bool)
    (h : outputFileExists = false ∨ allow_clobber = true) :
    write_array_to_csv (report.map rowToList) csvHeaders outputFileExists
        allow_clobber
      = CsvOutcome.written (csvHeaders :: report.map rowToList) := by
  have hall := rows_all_length report
  rcases h with h | h <;> subst h <;> simp [write_array_to_csv, hall]

/-- C6 witness: a one-row report written to a fresh destination. -/
theorem c6_csv_header_and_rows_witness :
    write_array_to_csv
        (([{ filePath := "f1", recipient := PyVal.str ("K1"),
              isEncrypted := true }] : List ScanRow).map rowToList)
        csvHeaders false false
      = CsvOutcome.written (csvHeaders ::
          ([{ filePath := "f1", recipient := PyVal.str ("K1"),
               isEncrypted := true }] : List ScanRow).map rowToList) :=
  c6_csv_header_and_rows
    [{ filePath := "f1", recipient := PyVal.str ("K1"), isEncrypted := true }]
    false false (Or.inl rfl)

/-- C7: a missing or non-directory path makes
validate_and_sanitize_directory_path raise FileNotFoundError respectively
NotADirectoryError; mainProgram hits this uncaught exception at line 146, before
any file is classified, so the run is fatal (Python reports the error and
exits non-zero) and no report exists. -/
theorem c7_invalid_directory_is_fatal
    (sanitizedDir : String) (dirExists dirIsDir : Bool) (files : List String)
    (gpgLookup : String → Except String (List String))
    (outFile : Option String) (outputFileExists allow_clobber : Bool)
    (h : dirExists = false ∨ dirIsDir = false) :
    mainProgram sanitizedDir dirExists dirIsDir files gpgLookup outFile
        outputFileExists allow_clobber
      = MainOutcome.fatal
          (if dirExists = false then DirError.fileNotFoundError
           else DirError.notADirectoryError) := by
  rcases h with h | h
  · subst h
    simp [mainProgram, validate_and_sanitize_directory_path]
  · subst h
    cases dirExists <;>
      simp [mainProgram, validate_and_sanitize_directory_path]

/-- C7 witness: a missing directory aborts before classification. -/
theorem c7_invalid_directory_is_fatal_witness :
    mainProgram ("missing") false true [] (fun _ => Except.ok []) Option.none
        false false
      = MainOutcome.fatal
          (if false = false then DirError.fileNotFoundError
           else DirError.notADirectoryError) :=
  c7_invalid_directory_is_fatal ("missing") false true []
    (fun _ => Except.ok []) Option.none false false (Or.inl rfl)

/-- C8: a classified row depends only on the lookup outcome for that path,
so two scans over unchanged file bytes produce identical ScanResults. -/
theorem c8_classification_idempotent
    (firstScan secondScan : String → Except String (List String))
    (file : String) (h : firstScan file = secondScan file) :
    classifyFile firstScan file = classifyFile secondScan file := by
  simp [classifyFile, h]

/-- C8 witness: two scans of the same encrypted file agree. -/
theorem c8_classification_idempotent_witness :
    classifyFile (fun _ => Except.ok [("KEYID1234567890AB")]) ("doc.gpg")
      = classifyFile (fun _ => Except.ok [("KEYID1234567890AB")])
          ("doc.gpg") :=
  c8_classification_idempotent (fun _ => Except.ok [("KEYID1234567890AB")])
    (fun _ => Except.ok [("KEYID1234567890AB")]) ("doc.gpg") rfl

/-- C9: an exception yields the boolean False while a readable file with no
recipients yields None; both rows have isEncrypted = false, but the
recipient cells differ as values and render differently in the CSV (the
text False versus an empty cell). -/
theorem c9_error_and_empty_are_distinguishable (file msg : String) :
    (classifyFile (fun _ => Except.error msg) file).recipient
        = PyVal.bool false
    ∧ (classifyFile (fun _ => Except.ok []) file).recipient = PyVal.none
    ∧ (classifyFile (fun _ => Except.error msg) file).isEncrypted = false
    ∧ (classifyFile (fun _ => Except.ok []) file).isEncrypted = false
    ∧ PyVal.bool false ≠ PyVal.none
    ∧ pyStr (PyVal.bool false) = ("False")
    ∧ pyStr PyVal.none = ("") :=
  ⟨rfl, rfl, rfl, rfl, by decide, rfl, rfl⟩

/-- C10: every row mainProgram builds has exactly three cells, the length of the
headers list, so the row-length validation always passes on a rendered
report and the ValueError branch is unreachable from mainProgram. -/
theorem c10_valueError_branch_unreachable (report : List ScanRow)
    (outputFileExists allow_clobber : Bool) :
    ((report.map rowToList).all
        (fun row => row.length == csvHeaders.length)) = true
    ∧ write_array_to_csv (report.map rowToList) csvHeaders outputFileExists
          allow_clobber
        ≠ CsvOutcome.valueError := by
  have hall := rows_all_length report
  refine ⟨hall, ?_⟩
  cases outputFileExists <;> cases allow_clobber <;>
    simp [write_array_to_csv, hall]
